import Mathlib

/-!
Verification of the coldvault backup orchestrator: a shallow embedding of the
incremental backup engine, the worker run lifecycle, the retry utilities, the
object-store client listing and the reconciliation (sync) engine, with theorems
settling the specification claims about them.
-/

namespace Coldvault

/-! ## Storage classes and jobs (app/database.py, app/config.py) -/

/-- Storage classes of a job (database enum `StorageClass`). -/
inductive StorageClass
  | STANDARD
  | GLACIER_IR
  | GLACIER_FLEXIBLE
  | DEEP_ARCHIVE
deriving DecidableEq, Repr

/-- The string `.value` of the storage-class enum member. -/
def StorageClass.value : StorageClass → String
  | .STANDARD => "STANDARD"
  | .GLACIER_IR => "GLACIER_IR"
  | .GLACIER_FLEXIBLE => "GLACIER_FLEXIBLE"
  | .DEEP_ARCHIVE => "DEEP_ARCHIVE"

/-- Job types (database enum `JobType`): dataset jobs and host (restic) jobs. -/
inductive JobType
  | dataset
  | host
deriving DecidableEq, Repr

/-- The fields of a `Job` row that the engine, the worker and the sync engine
read. -/
structure Job where
  id : Nat
  name : String
  job_type : JobType
  s3_bucket : String
  s3Prefix : String
  storage_class : StorageClass
  encryption_enabled : Bool
  incremental_enabled : Bool
deriving DecidableEq, Repr

/-! ## File signatures and manifests (incremental_backup.py) -/

/-- A file signature as computed by `get_file_signature`: size, mtime and the
md5-based content hash.  Timestamps are modelled as naturals (ticks) and the
hash as an opaque string. -/
structure Sig where
  size : Nat
  mtime : Nat
  hash : String
deriving DecidableEq, Repr

/-- One value of the manifest `files` map.  Every field is optional because the
manifest is a JSON object read back with `.get`: entries written by the backup
engine carry all four fields, while entries rebuilt from S3 by the sync engine
carry `hash = None` and `mtime = None`. -/
structure ManifestEntry where
  size : Option Nat
  mtime : Option Nat
  hash : Option String
  s3_key : Option String
deriving DecidableEq, Repr

/-- Association-list lookup, modelling Python `dict.get`. -/
def alookup (k : String) : List (String × α) → Option α
  | [] => none
  | (k', v) :: rest => if k' = k then some v else alookup k rest

/-- Association-list insert, modelling Python `dict[k] = v`: replaces the
binding when the key is present, appends otherwise. -/
def ainsert (m : List (String × α)) (k : String) (v : α) : List (String × α) :=
  if (alookup k m).isSome then
    m.map (fun p => if p.1 = k then (k, v) else p)
  else
    m ++ [(k, v)]

/-- The `files` map of a manifest: relative path to manifest entry. -/
abbrev Manifest := List (String × ManifestEntry)

/-- `pat.startswith`-style prefix test, computed on the character lists. -/
def strIsPrefixOf (p s : String) : Bool :=
  p.toList.isPrefixOf s.toList

/-- `str.endswith`, computed on the character lists. -/
def strEndsWith (s post : String) : Bool :=
  post.toList.reverse.isPrefixOf s.toList.reverse

/-- Left-to-right replacement of non-overlapping pattern occurrences, the
semantics of Python `str.replace`, with fuel for structural recursion. -/
def replaceCharsGo (pat rep : List Char) : Nat → List Char → List Char
  | _, [] => []
  | 0, l => l
  | fuel + 1, c :: rest =>
    if pat.isPrefixOf (c :: rest) then
      rep ++ replaceCharsGo pat rep fuel ((c :: rest).drop pat.length)
    else c :: replaceCharsGo pat rep fuel rest

/-- Python `s.replace(pat, rep)` for a non-empty pattern (all the patterns the
source replaces are non-empty literals). -/
def pyReplace (s pat rep : String) : String :=
  if pat.isEmpty then s
  else ⟨replaceCharsGo pat.toList rep.toList s.toList.length s.toList⟩

/-- A manifest JSON document (`manifest_data` in the source). -/
structure ManifestDoc where
  snapshot_id : String
  job_id : Nat
  total_files : Nat
  files : Manifest
deriving DecidableEq, Repr

/-- The bytes of an object stored in S3, as far as manifest handling observes
them: either a JSON manifest document, or a Fernet ciphertext wrapping some
payload.  `json.load` succeeds exactly on the `json` form; Fernet ciphertext is
base64 token data and is never valid JSON. -/
inductive Blob
  | json (doc : ManifestDoc)
  | encrypted (inner : Blob)
deriving DecidableEq, Repr

/-- `json.load` on a downloaded blob: parses the plain JSON document, raises
(returns `none`) on ciphertext. -/
def jsonParse : Blob → Option ManifestDoc
  | .json doc => some doc
  | .encrypted _ => none

/-- `decrypt_file` on a blob: strips one layer of Fernet encryption, raises
(returns `none`) when the input is not a Fernet token. -/
def decryptBlob : Blob → Option Blob
  | .encrypted inner => some inner
  | .json _ => none

/-- `encrypt_file` on a serialized manifest document. -/
def encryptBlob (b : Blob) : Blob := .encrypted b

/-! ## Loading the previous manifest
(`IncrementalBackupEngine.load_previous_manifest`, incremental_backup.py) -/

/-- The fields of a `Snapshot` row read by `load_previous_manifest`. -/
structure SnapRow where
  s3_key : Option String
  manifest_key : Option String
  retained : Bool
deriving DecidableEq, Repr

/-- The object store, restricted to what manifest handling reads: a partial map
from key to stored blob. -/
def BlobStore := String → Option Blob

/-- The manifest key `load_previous_manifest` resolves for a snapshot row:
`manifest_key` when set, otherwise derived from `s3_key` by replacing
`.tar.gz` with `.manifest.json` and stripping the `.encrypted` suffix. -/
def resolveManifestKey (snap : SnapRow) : Option String :=
  match snap.manifest_key with
  | some k => some k
  | none =>
    match snap.s3_key with
    | some sk =>
      let k := pyReplace sk ".tar.gz" ".manifest.json"
      some (if strEndsWith sk ".encrypted" then pyReplace k ".encrypted" "" else k)
    | none => none

/-- `IncrementalBackupEngine.load_previous_manifest`: fetch the manifest of the
most recent retained snapshot (given as `lastSnapshot`), `json.load` it and
return its `files` map.  Every failure path (no snapshot, no key, download
error, parse error) degrades to the empty map.  Note: the downloaded blob is
parsed directly; it is never decrypted. -/
def load_previous_manifest (lastSnapshot : Option SnapRow) (store : BlobStore) :
    Manifest :=
  match lastSnapshot with
  | none => []
  | some snap =>
    match resolveManifestKey snap with
    | none => []
    | some key =>
      match store key with
      | none => []
      | some blob =>
        match jsonParse blob with
        | none => []
        | some doc => doc.files

/-! ## Scan phase (`scan_file` / `scan_directory`) -/

/-- Change detection in `scan_file`: a file needs backup unless the previous
manifest has an entry for its relative path whose `size`, `mtime` and `hash`
all equal the fresh signature. -/
def needsBackup (previousFiles : Manifest) (relPath : String) (sig : Sig) : Bool :=
  match alookup relPath previousFiles with
  | none => true
  | some prev =>
    !(prev.size == some sig.size && prev.mtime == some sig.mtime &&
      prev.hash == some sig.hash)

/-- One discovered file, after include/exclude filtering: its relative path and
the result of `get_file_signature` (`none` models a scan/signature failure,
counted as skipped). -/
abbrev ScanItem := String × Option Sig

/-- The aggregate counters of the scan phase (`scan_directory` plus the merge
loop in `backup`). -/
structure ScanAcc where
  files_to_backup : List (String × Sig)
  files_unchanged : Nat
  total_size : Nat
  new_size : Nat
  file_count : Nat
  skipped_files : Nat
deriving DecidableEq, Repr

/-- The empty scan accumulator. -/
def ScanAcc.empty : ScanAcc :=
  { files_to_backup := [], files_unchanged := 0, total_size := 0,
    new_size := 0, file_count := 0, skipped_files := 0 }

/-- Processing one scanned file in `scan_directory`'s result loop. -/
def scanStep (previousFiles : Manifest) (acc : ScanAcc) (item : ScanItem) :
    ScanAcc :=
  match item.2 with
  | none => { acc with skipped_files := acc.skipped_files + 1 }
  | some sig =>
    let acc := { acc with
      file_count := acc.file_count + 1,
      total_size := acc.total_size + sig.size }
    if needsBackup previousFiles item.1 sig then
      { acc with
        files_to_backup := ainsert acc.files_to_backup item.1 sig,
        new_size := acc.new_size + sig.size }
    else
      { acc with files_unchanged := acc.files_unchanged + 1 }

/-- The whole scan phase over all source paths: `scan_directory` on each source
followed by the merge in `backup` is one fold over the concatenated list of
discovered files. -/
def scanAll (previousFiles : Manifest) (items : List ScanItem) : ScanAcc :=
  items.foldl (scanStep previousFiles) ScanAcc.empty

/-! ## Upload phase and engine result (`IncrementalBackupEngine.backup`) -/

/-- The result dictionary returned by `IncrementalBackupEngine.backup`.
`total_files_scanned` and `upload_errors` are `Option` because the no-op
short-circuit returns a dictionary without those keys; the worker reads them
with `.get` and a default. -/
structure IncResult where
  snapshot_id : String
  size_bytes : Nat
  files_count : Nat
  s3_key : Option String
  manifest_key : Option String
  incremental : Bool
  files_unchanged : Nat
  total_files_scanned : Option Nat
  upload_errors : Option Nat
deriving DecidableEq, Repr

/-- One object write performed against the store during a backup run: the key,
the storage class passed to `upload_file`, and the stored bytes when the write
is a manifest write (per-file payloads are opaque). -/
structure UploadCall where
  key : String
  storage_class : String
  content : Option Blob
deriving DecidableEq, Repr

/-- The `storage_class_map` literal in `backup`. -/
def storage_class_map : List (String × String) :=
  [("STANDARD", "STANDARD"),
   ("GLACIER_IR", "GLACIER_IR"),
   ("GLACIER_FLEXIBLE", "GLACIER_FLEXIBLE"),
   ("DEEP_ARCHIVE", "DEEP_ARCHIVE")]

/-- `storage_class_map.get(job.storage_class.value, "DEEP_ARCHIVE")`. -/
def s3StorageClassOf (job : Job) : String :=
  (alookup job.storage_class.value storage_class_map).getD "DEEP_ARCHIVE"

/-- The per-file destination key: `<prefix>/<name>/<relative_path>` with
backslashes normalized to `/`. -/
def dataKeyFor (job : Job) (relPath : String) : String :=
  pyReplace (job.s3Prefix ++ "/" ++ job.name ++ "/" ++ relPath) "\\" "/"

/-- The canonical manifest key `<prefix>/<name>.manifest.json`. -/
def manifestKeyFor (job : Job) : String :=
  job.s3Prefix ++ "/" ++ job.name ++ ".manifest.json"

/-- The manifest-merge loop in `backup`: start from the previous `files` map
and, for each file scheduled for backup that was actually uploaded, store an
updated entry carrying its destination key.  Files that failed to upload (and
unchanged files) retain their previous entries. -/
def mergeManifest (previousFiles : Manifest) (toBackup : List (String × Sig))
    (uploadedFiles : List (String × String)) : Manifest :=
  toBackup.foldl
    (fun cur p =>
      match alookup p.1 uploadedFiles with
      | none => cur
      | some key =>
        ainsert cur p.1
          { size := some p.2.size, mtime := some p.2.mtime,
            hash := some p.2.hash, s3_key := some key })
    previousFiles

/-- `IncrementalBackupEngine.backup`, as a function of its effective inputs:
the job, the generated snapshot id, the previous manifest `files` map, the
scanned files, `found rel` (whether the file still exists when upload tasks are
prepared), and `uploadOk rel` (whether its upload eventually succeeds, counting
the retry pass).  Returns the result dictionary and the list of object writes
performed.  The manifest write always uses the `STANDARD` storage class and is
encrypted when the job has encryption enabled. -/
def incBackupRun (job : Job) (snapshotId : String) (previousFiles : Manifest)
    (items : List ScanItem) (found uploadOk : String → Bool) :
    IncResult × List UploadCall :=
  let acc := scanAll previousFiles items
  if acc.files_to_backup.length = 0 then
    ({ snapshot_id := snapshotId, size_bytes := 0, files_count := 0,
       s3_key := none, manifest_key := none, incremental := true,
       files_unchanged := acc.files_unchanged,
       total_files_scanned := none, upload_errors := none }, [])
  else
    let tasks := acc.files_to_backup.filter (fun p => found p.1)
    let uploaded := tasks.filter (fun p => uploadOk p.1)
    let failed := tasks.filter (fun p => !uploadOk p.1)
    let sClass := s3StorageClassOf job
    let uploadedFiles : List (String × String) :=
      uploaded.map (fun p => (p.1, dataKeyFor job p.1))
    let current := mergeManifest previousFiles acc.files_to_backup uploadedFiles
    let doc : ManifestDoc :=
      { snapshot_id := snapshotId, job_id := job.id,
        total_files := current.length, files := current }
    let manifestBlob :=
      if job.encryption_enabled then Blob.encrypted (Blob.json doc)
      else Blob.json doc
    ({ snapshot_id := snapshotId,
       size_bytes := acc.new_size,
       files_count := uploadedFiles.length,
       s3_key := some (job.s3Prefix ++ "/" ++ job.name ++ "/"),
       manifest_key := some (manifestKeyFor job),
       incremental := true,
       files_unchanged := acc.files_unchanged,
       total_files_scanned := some acc.file_count,
       upload_errors := some failed.length },
     uploaded.map
       (fun p =>
         { key := dataKeyFor job p.1, storage_class := sClass, content := none })
       ++ [{ key := manifestKeyFor job, storage_class := "STANDARD",
             content := some manifestBlob }])

/-! ## Worker run lifecycle (app/worker.py) -/

/-- The `BackupStatus` database enum. -/
inductive BackupStatus
  | PENDING
  | RUNNING
  | SUCCESS
  | FAILED
  | CANCELLED
deriving DecidableEq, Repr

/-- The error messages the worker composes into `error_message`.  Each
constructor corresponds to one format string in worker.py; the partial-failure
messages carry the failed-upload count and the success rate that the format
string interpolates. -/
inductive RunMessage
  | partialFailed (failedCount : Nat) (successRate : ℚ)
  | partialSuccessWarning (failedCount : Nat) (successRate : ℚ)
  | interruptedRestart
  | cancelledByUser
  | errorText (msg : String)
deriving DecidableEq, Repr

/-- The terminal state the worker assigns from an engine result. -/
structure RunOutcome where
  status : BackupStatus
  error_message : Option RunMessage
deriving DecidableEq, Repr

/-- The success/partial-success decision in `BackupWorker.execute_backup`
(worker.py lines 136-174): read `upload_errors` (default 0), `files_count`, and
`total_files_scanned` (default `files_count`); compute the success rate; mark
the run FAILED when some uploads failed and the rate is below 95%, otherwise
SUCCESS, recording a partial-success warning when some uploads failed. -/
def finalizeRun (result : IncResult) : RunOutcome :=
  let uploadErrorsCount := result.upload_errors.getD 0
  let filesCount := result.files_count
  let totalFilesScanned := result.total_files_scanned.getD filesCount
  let isPartialSuccess := uploadErrorsCount > 0
  let successRate : ℚ :=
    if totalFilesScanned > 0 then
      (filesCount : ℚ) / (totalFilesScanned : ℚ) * 100
    else 100
  if isPartialSuccess ∧ successRate < 95 then
    { status := .FAILED,
      error_message := some (.partialFailed uploadErrorsCount successRate) }
  else
    { status := .SUCCESS,
      error_message :=
        if isPartialSuccess then
          some (.partialSuccessWarning uploadErrorsCount successRate)
        else none }

/-- Python `x or default` on an optional string: `None` and the empty string
are falsy and give the default. -/
def pyOrString (x : Option String) (dflt : String) : String :=
  match x with
  | none => dflt
  | some s => if s = "" then dflt else s

/-- The `Snapshot` row the worker inserts after a successful run. -/
structure SnapshotInsert where
  job_id : Nat
  backup_run_id : Nat
  snapshot_id : String
  size_bytes : Nat
  files_count : Nat
  s3_key : Option String
  manifest_key : Option String
  storage_class : StorageClass
  is_incremental : Bool
  files_unchanged : Nat
  retained : Bool
deriving DecidableEq, Repr

/-- Construction of the `Snapshot` row in `execute_backup` (worker.py lines
201-214): `s3_key` is `result.get("s3_key") or "N/A"`, so a missing engine key
is recorded as the placeholder string `"N/A"`. -/
def snapshotOf (jobId runId : Nat) (jobStorageClass : StorageClass)
    (result : IncResult) : SnapshotInsert :=
  { job_id := jobId,
    backup_run_id := runId,
    snapshot_id := result.snapshot_id,
    size_bytes := result.size_bytes,
    files_count := result.files_count,
    s3_key := some (pyOrString result.s3_key "N/A"),
    manifest_key := result.manifest_key,
    storage_class := jobStorageClass,
    is_incremental := result.incremental,
    files_unchanged := result.files_unchanged,
    retained := true }

/-! ## Orphan recovery (`BackupWorker._recover_orphaned_backups`) -/

/-- The fields of a `BackupRun` row touched by orphan recovery. -/
structure RunRow where
  id : Nat
  job_id : Nat
  status : BackupStatus
  started_at : Option Nat
  completed_at : Option Nat
  duration_seconds : Option Int
  error_message : Option RunMessage
deriving DecidableEq, Repr

/-- The fields of a `Job` row touched by orphan recovery. -/
structure JobRow where
  id : Nat
  last_run_status : Option BackupStatus
deriving DecidableEq, Repr

/-- Recovery of a single run row: a RUNNING run is marked FAILED with the
interruption message, `completed_at := now`, and (when `started_at` is set)
`duration_seconds := now - started_at`; any other row is left untouched. -/
def recoverRun (now : Nat) (r : RunRow) : RunRow :=
  if r.status = .RUNNING then
    { r with
      status := .FAILED,
      completed_at := some now,
      duration_seconds :=
        match r.started_at with
        | some s => some ((now : Int) - (s : Int))
        | none => r.duration_seconds,
      error_message := some .interruptedRestart }
  else r

/-- The job-side update of orphan recovery: a job owning some RUNNING run gets
`last_run_status := FAILED` in the same commit. -/
def recoverJob (runs : List RunRow) (j : JobRow) : JobRow :=
  if runs.any (fun r => r.status = .RUNNING && r.job_id = j.id) then
    { j with last_run_status := some .FAILED }
  else j

/-- `BackupWorker._recover_orphaned_backups`, run on worker construction: every
RUNNING run is recovered and the owning jobs are updated, all in one commit. -/
def recover_orphaned_backups (now : Nat) (runs : List RunRow)
    (jobs : List JobRow) : List RunRow × List JobRow :=
  (runs.map (recoverRun now), jobs.map (recoverJob runs))

/-! ## Retry utilities (app/retry_utils.py) -/

/-- `exponential_backoff`: the clamped delay `min(base * 2 ^ attempt,
max_delay)`, plus (when jitter is on) a random draw from
`uniform(0, delay * 0.1)` supplied here as the argument `draw`.  Python floats
are modelled as exact rationals. -/
def exponential_backoff (attempt : Nat) (base max_delay : ℚ) (jitter : Bool)
    (draw : ℚ) : ℚ :=
  let delay := min (base * 2 ^ attempt) max_delay
  if jitter then delay + draw else delay

/-- The exception classes `is_retryable_error` can observe: the builtin OS
hierarchy and the botocore hierarchy. -/
inductive PyClass
  | BaseException
  | PyException
  | OSError
  | ConnectionError
  | TimeoutError
  | PermissionError
  | FileNotFoundError
  | SocketTimeout
  | BotoCoreError
  | ReadTimeoutError
  | ConnectTimeoutError
  | EndpointConnectionError
  | ConnectionClosedError
  | ClientError
deriving DecidableEq, Repr

/-- The ancestors (reflexive-transitive superclasses) of each class, following
the Python 3 builtin exception hierarchy (`PermissionError`,
`FileNotFoundError`, `ConnectionError` and `TimeoutError` are subclasses of
`OSError`; `socket.timeout` is `TimeoutError`) and the botocore hierarchy
(its timeout/connection errors derive from `BotoCoreError`). -/
def PyClass.ancestors : PyClass → List PyClass
  | .BaseException => [.BaseException]
  | .PyException => [.PyException, .BaseException]
  | .OSError => [.OSError, .PyException, .BaseException]
  | .ConnectionError => [.ConnectionError, .OSError, .PyException, .BaseException]
  | .TimeoutError => [.TimeoutError, .OSError, .PyException, .BaseException]
  | .PermissionError => [.PermissionError, .OSError, .PyException, .BaseException]
  | .FileNotFoundError => [.FileNotFoundError, .OSError, .PyException, .BaseException]
  | .SocketTimeout => [.SocketTimeout, .TimeoutError, .OSError, .PyException, .BaseException]
  | .BotoCoreError => [.BotoCoreError, .PyException, .BaseException]
  | .ReadTimeoutError => [.ReadTimeoutError, .BotoCoreError, .PyException, .BaseException]
  | .ConnectTimeoutError => [.ConnectTimeoutError, .BotoCoreError, .PyException, .BaseException]
  | .EndpointConnectionError => [.EndpointConnectionError, .BotoCoreError, .PyException, .BaseException]
  | .ConnectionClosedError => [.ConnectionClosedError, .BotoCoreError, .PyException, .BaseException]
  | .ClientError => [.ClientError, .PyException, .BaseException]

/-- An exception value as `is_retryable_error` observes it: its class, its
lowercased `str()` text, and (for `ClientError`) the AWS error code and HTTP
status of its response. -/
structure PyError where
  cls : PyClass
  msgLower : String
  errorCode : Option String
  httpStatus : Option Nat
deriving DecidableEq, Repr

/-- Python `isinstance(e, c)`. -/
def isinstance (e : PyError) (c : PyClass) : Bool :=
  c ∈ e.cls.ancestors

/-- Python `isinstance(e, tuple_of_classes)`. -/
def isinstanceAny (e : PyError) (cs : List PyClass) : Bool :=
  cs.any (fun c => isinstance e c)

/-- The `RETRYABLE_EXCEPTIONS` tuple. -/
def RETRYABLE_EXCEPTIONS : List PyClass :=
  [.ConnectionError, .TimeoutError, .ReadTimeoutError, .ConnectTimeoutError,
   .EndpointConnectionError, .ConnectionClosedError, .SocketTimeout, .OSError]

/-- The `RETRYABLE_ERROR_CODES` list. -/
def RETRYABLE_ERROR_CODES : List String :=
  ["ServiceUnavailable", "InternalError", "RequestTimeout", "Throttling",
   "SlowDown", "RequestTimeoutException", "NoSuchUpload", "InvalidUpload"]

/-- The `NON_RETRYABLE_ERROR_CODES` list. -/
def NON_RETRYABLE_ERROR_CODES : List String :=
  ["InvalidAccessKeyId", "SignatureDoesNotMatch", "AccessDenied",
   "NoSuchBucket", "InvalidBucketName", "InvalidParameterValue",
   "InvalidRequest", "MalformedXML", "InvalidArgument"]

/-- The substring patterns scanned in the error message. -/
def retryablePatterns : List String :=
  ["timeout", "connection", "network", "temporary", "retry", "throttl",
   "rate limit", "service unavailable", "internal error"]

/-- Whether `pat` occurs as a contiguous sublist. -/
def hasSublist (pat : List Char) : List Char → Bool
  | [] => pat.isEmpty
  | c :: rest => pat.isPrefixOf (c :: rest) || hasSublist pat rest

/-- Substring test on the lowercased message. -/
def msgHasPattern (msg : String) : Bool :=
  retryablePatterns.any (fun p => hasSublist p.toList msg.toList)

/-- `is_retryable_error` (retry_utils.py lines 59-123), branch for branch:
retryable exception types first, then the botocore connection/timeout check,
then `ClientError` code and HTTP-status classification, finally the
message-pattern scan; unmatched errors default to non-retryable. -/
def is_retryable_error (e : PyError) : Bool :=
  if isinstanceAny e RETRYABLE_EXCEPTIONS then true
  else if isinstance e .BotoCoreError &&
      isinstanceAny e [.ReadTimeoutError, .ConnectTimeoutError,
        .EndpointConnectionError, .ConnectionClosedError] then true
  else if isinstance e .ClientError then
    let code := e.errorCode.getD ""
    if code ∈ NON_RETRYABLE_ERROR_CODES then false
    else if code ∈ RETRYABLE_ERROR_CODES then true
    else
      let status := e.httpStatus.getD 0
      if status ≥ 500 then true
      else if status = 429 then true
      else if status = 408 then true
      else if 400 ≤ status ∧ status < 500 then false
      else msgHasPattern e.msgLower
  else msgHasPattern e.msgLower

/-! ## Object-store listing (app/aws.py `S3Client.list_objects`,
app/sync.py `SyncWorker._list_s3_files`) -/

/-- An object in the bucket: key and size. -/
structure S3Object where
  key : String
  size : Nat
deriving DecidableEq, Repr

/-- `S3Client.list_objects(bucket, prefix, limit=100)`: a single
`list_objects_v2` call with `MaxKeys=limit`; the response is one page, so at
most `limit` objects are returned and no continuation token is followed. -/
def list_objects (store : List S3Object) (pre : String) (limit : Nat) :
    List S3Object :=
  (store.filter (fun o => strIsPrefixOf pre o.key)).take limit

/-- Splitting a listing into pages of `n` (fuel-driven so the recursion is
structural; `fuel` is instantiated with the list length). -/
def chunksGo (n : Nat) : Nat → List α → List (List α)
  | _, [] => []
  | 0, _ :: _ => []
  | fuel + 1, x :: xs => ((x :: xs).take n) :: chunksGo n fuel ((x :: xs).drop n)

/-- The pages a paginator yields over a listing, `n` keys per page. -/
def chunks (n : Nat) (l : List α) : List (List α) :=
  chunksGo n l.length l

/-- The pages returned by `get_paginator('list_objects_v2')` over a prefix. -/
def paginatePages (store : List S3Object) (pre : String) (pageSize : Nat) :
    List (List S3Object) :=
  chunks pageSize (store.filter (fun o => strIsPrefixOf pre o.key))

/-- Folding one page of objects into the `files` dict (`files[key] = size`). -/
def foldPage (acc : List (String × Nat)) (page : List S3Object) :
    List (String × Nat) :=
  page.foldl (fun files o => ainsert files o.key o.size) acc

/-- `SyncWorker._list_s3_files`: iterate the paginator over the whole prefix,
accumulating every key with its size. -/
def list_s3_files (pageSize : Nat) (store : List S3Object) (pre : String) :
    List (String × Nat) :=
  (paginatePages store pre pageSize).foldl foldPage []

/-! ## Reconciliation engine (app/sync.py) -/

/-- Writes the sync engine can perform: uploads to the object store and commits
to the metadata store. -/
inductive SyncEffect
  | s3Upload (key : String) (storage_class : String)
  | dbCommit
deriving DecidableEq, Repr

/-- The issue tags the sync engine reports (payloads are the counts the
corresponding dictionaries carry). -/
inductive SyncIssue
  | missing_backup (key : String)
  | s3_key_mismatch
  | manifest_rebuilt (filesFound : Nat)
  | manifest_missing
  | manifest_unreadable
  | manifest_created (count : Nat)
  | files_missing (count : Nat)
  | files_orphaned (count : Nat) (haveManifest : Bool)
  | files_mismatched (count : Nat)
deriving DecidableEq, Repr

/-- The action tags the sync engine records (only in non-dry runs). -/
inductive SyncAction
  | mark_snapshot_invalid
  | updated_s3_key
  | manifest_rebuilt
  | manifest_created
  | orphaned_files_found (count : Nat)
  | updated_manifest_key
deriving DecidableEq, Repr

/-- The `summary` block of an incremental sync report. -/
structure SyncSummary where
  total_files_in_manifest : Nat
  total_files_in_s3 : Nat
  files_verified : Nat
  files_missing : Nat
  files_orphaned : Nat
  files_mismatched : Nat
  manifest_available : Bool
deriving DecidableEq, Repr

/-- Top-level status of a sync report. -/
inductive SyncStatus
  | completed
  | no_snapshots
deriving DecidableEq, Repr

/-- The report `sync_job` returns. -/
structure SyncReport where
  status : SyncStatus
  dry_run : Bool
  issues : List SyncIssue
  actions : List SyncAction
  summary : Option SyncSummary
deriving DecidableEq, Repr

/-- The environment a sync run observes: the latest retained snapshot row, the
bucket contents (for listing and HEAD), the blob stored at the canonical
manifest key, and the paginator page size. -/
structure SyncEnv where
  latestSnapshot : Option SnapRow
  objects : List S3Object
  manifestBlob : Option Blob
  pageSize : Nat

/-- `S3Client.get_object_info` restricted to existence and size. -/
def headObject (objects : List S3Object) (key : String) : Option Nat :=
  match objects.find? (fun o => o.key == key) with
  | none => none
  | some o => some o.size

/-- `SyncWorker._load_manifest`: download the blob at the manifest key,
decrypt it first when the job has encryption enabled, then `json.load`; any
failure yields `None`. -/
def sync_load_manifest (encryptionEnabled : Bool) (blob : Option Blob) :
    Option ManifestDoc :=
  match blob with
  | none => none
  | some b =>
    if encryptionEnabled then
      match decryptBlob b with
      | none => none
      | some inner => jsonParse inner
    else jsonParse b

/-- `SyncWorker._rebuild_manifest_from_s3`: list the job's data prefix; if
empty return `None`; otherwise build entries keyed by the key with the prefix
stripped (skipping empty relative paths), with `hash = None, mtime = None`.
The timestamp suffix of the rebuilt snapshot id is abstracted away. -/
def rebuild_manifest_from_s3 (job : Job) (env : SyncEnv) : Option ManifestDoc :=
  let pre := job.s3Prefix ++ "/" ++ job.name ++ "/"
  let s3Files := list_s3_files env.pageSize env.objects pre
  if s3Files.length = 0 then none
  else
    let files := s3Files.foldl
      (fun fs kv =>
        let rel := pyReplace kv.1 pre ""
        if rel = "" then fs
        else
          ainsert fs rel
            { s3_key := some kv.1, size := some kv.2, hash := none,
              mtime := none })
      []
    some { snapshot_id := job.name ++ "_rebuilt", job_id := job.id,
           total_files := files.length, files := files }

/-- The upload `SyncWorker._save_manifest` performs: the (possibly encrypted)
manifest JSON is uploaded with storage class `job.storage_class.value` (the
enum always has `.value`, so the `hasattr` fallback to `"DEEP_ARCHIVE"` is
dead). -/
def sync_save_manifest (job : Job) (doc : ManifestDoc) (manifestKey : String) :
    UploadCall :=
  { key := manifestKey,
    storage_class := job.storage_class.value,
    content := some (if job.encryption_enabled then Blob.encrypted (Blob.json doc)
                     else Blob.json doc) }

/-- `SyncWorker._verify_file`: returns (exists, size_match); a falsy expected
size (absent or zero) skips the size comparison. -/
def verify_file (objects : List S3Object) (entry : ManifestEntry) :
    Bool × Bool :=
  match entry.s3_key with
  | none => (false, false)
  | some k =>
    match headObject objects k with
    | none => (false, false)
    | some actual =>
      (true,
       match entry.size with
       | none => true
       | some 0 => true
       | some expected => expected == actual)

/-- The verification loop over manifest entries: counts
(verified, missing, mismatched). -/
def classifyManifestFiles (objects : List S3Object) (manifestFiles : Manifest) :
    Nat × Nat × Nat :=
  manifestFiles.foldl
    (fun acc p =>
      let r := verify_file objects p.2
      if !r.1 then (acc.1, acc.2.1 + 1, acc.2.2)
      else if !r.2 then (acc.1, acc.2.1, acc.2.2 + 1)
      else (acc.1 + 1, acc.2.1, acc.2.2))
    (0, 0, 0)

/-- The truthy `s3_key` values of the manifest entries (the orphan set is
computed against these). -/
def manifestS3Keys (manifestFiles : Manifest) : List String :=
  manifestFiles.filterMap
    (fun p =>
      match p.2.s3_key with
      | none => none
      | some s => if s = "" then none else some s)

/-- Orphan classification when a manifest is available: keys listed under the
prefix that no manifest entry names and that are not the manifest itself. -/
def orphanedKeys (s3Files : List (String × Nat)) (manifestFiles : Manifest) :
    List (String × Nat) :=
  s3Files.filter
    (fun kv =>
      !(manifestS3Keys manifestFiles).contains kv.1 &&
      !(strEndsWith kv.1 ".manifest.json"))

/-- `SyncWorker._sync_incremental_backup`: manifest presence/load/rebuild,
prefix listing, per-entry verification, orphan classification, manifest-key
repair.  Returns the report and the writes performed; every write is guarded
by `not dry_run` in the source, which the structure mirrors. -/
def sync_incremental_backup (job : Job) (env : SyncEnv) (dryRun : Bool) :
    SyncReport × List SyncEffect :=
  match env.latestSnapshot with
  | none =>
    ({ status := .no_snapshots, dry_run := dryRun, issues := [], actions := [],
       summary := none }, [])
  | some snap =>
    let expectedManifestKey := manifestKeyFor job
    let step1 : Option ManifestDoc × List SyncIssue × List SyncAction ×
        List SyncEffect :=
      if env.manifestBlob.isSome then
        match sync_load_manifest job.encryption_enabled env.manifestBlob with
        | some doc => (some doc, [], [], [])
        | none =>
          match rebuild_manifest_from_s3 job env with
          | some doc =>
            if dryRun then (some doc, [.manifest_unreadable], [], [])
            else
              (some doc, [.manifest_unreadable], [.manifest_rebuilt],
               [.s3Upload expectedManifestKey
                  (sync_save_manifest job doc expectedManifestKey).storage_class])
          | none => (none, [.manifest_unreadable], [], [])
      else
        match rebuild_manifest_from_s3 job env with
        | some doc =>
          if dryRun then (some doc, [.manifest_rebuilt doc.files.length], [], [])
          else
            (some doc, [.manifest_rebuilt doc.files.length], [.manifest_rebuilt],
             [.s3Upload expectedManifestKey
                (sync_save_manifest job doc expectedManifestKey).storage_class])
        | none => (none, [.manifest_missing], [], [])
    let (manifestData, issues1, actions1, effects1) := step1
    let s3Pre := job.s3Prefix ++ "/" ++ job.name ++ "/"
    let s3Files := list_s3_files env.pageSize env.objects s3Pre
    let manifestFiles := match manifestData with
      | some d => d.files
      | none => []
    let step4 : Option ManifestDoc × Nat × Nat × Nat × List (String × Nat) ×
        List SyncIssue × List SyncAction × List SyncEffect :=
      if manifestFiles.length ≠ 0 then
        let counts := classifyManifestFiles env.objects manifestFiles
        (manifestData, counts.1, counts.2.1, counts.2.2,
         orphanedKeys s3Files manifestFiles, [], [], [])
      else
        let orphans := s3Files.filter (fun kv => !(strEndsWith kv.1 ".manifest.json"))
        if s3Files.length ≠ 0 ∧ ¬dryRun then
          match manifestData with
          | none =>
            match rebuild_manifest_from_s3 job env with
            | some doc =>
              (some doc, 0, 0, 0, orphans,
               [.manifest_created s3Files.length], [.manifest_created],
               [.s3Upload expectedManifestKey
                  (sync_save_manifest job doc expectedManifestKey).storage_class])
            | none => (none, 0, 0, 0, orphans, [], [], [])
          | some d => (some d, 0, 0, 0, orphans, [], [], [])
        else (manifestData, 0, 0, 0, orphans, [], [], [])
    let (manifestData2, verified, missing, mismatched, orphans, issues4,
         actions4, effects4) := step4
    let issuesMissing : List SyncIssue :=
      if missing > 0 then [.files_missing missing] else []
    let issuesOrphaned : List SyncIssue :=
      if orphans.length > 0 then
        [.files_orphaned orphans.length manifestData2.isSome]
      else []
    let actionsOrphaned : List SyncAction :=
      if orphans.length > 0 ∧ ¬dryRun then
        [.orphaned_files_found orphans.length]
      else []
    let issuesMismatched : List SyncIssue :=
      if mismatched > 0 then [.files_mismatched mismatched] else []
    let repairKey := snap.manifest_key ≠ some expectedManifestKey
    let actionsRepair : List SyncAction :=
      if repairKey ∧ ¬dryRun then [.updated_manifest_key] else []
    let effectsRepair : List SyncEffect :=
      if repairKey ∧ ¬dryRun then [.dbCommit] else []
    ({ status := .completed,
       dry_run := dryRun,
       issues := issues1 ++ issues4 ++ issuesMissing ++ issuesOrphaned ++
         issuesMismatched,
       actions := actions1 ++ actions4 ++ actionsOrphaned ++ actionsRepair,
       summary := some
         { total_files_in_manifest :=
             if manifestData2.isSome then manifestFiles.length else 0,
           total_files_in_s3 := s3Files.length,
           files_verified := verified,
           files_missing := missing,
           files_orphaned := orphans.length,
           files_mismatched := mismatched,
           manifest_available := manifestData2.isSome } },
     effects1 ++ effects4 ++ effectsRepair)

/-- `SyncWorker._sync_full_backup`: check the archive object, repair the
recorded key; the only write is the key-repair commit, guarded by
`not dry_run`. -/
def sync_full_backup (job : Job) (env : SyncEnv) (dryRun : Bool) :
    SyncReport × List SyncEffect :=
  match env.latestSnapshot with
  | none =>
    ({ status := .no_snapshots, dry_run := dryRun, issues := [], actions := [],
       summary := none }, [])
  | some snap =>
    let expected := job.s3Prefix ++ "/" ++ job.name ++ ".tar.gz" ++
      (if job.encryption_enabled then ".encrypted" else "")
    let present := (headObject env.objects expected).isSome
    let issues1 : List SyncIssue :=
      if !present then [.missing_backup expected] else []
    let actions1 : List SyncAction :=
      if !present ∧ ¬dryRun then [.mark_snapshot_invalid] else []
    let mismatch := snap.s3_key ≠ some expected
    let issues2 : List SyncIssue := if mismatch then [.s3_key_mismatch] else []
    let actions2 : List SyncAction :=
      if mismatch ∧ ¬dryRun then [.updated_s3_key] else []
    let effects2 : List SyncEffect :=
      if mismatch ∧ ¬dryRun then [.dbCommit] else []
    ({ status := .completed, dry_run := dryRun, issues := issues1 ++ issues2,
       actions := actions1 ++ actions2, summary := none }, effects2)

/-- `SyncWorker.sync_job`: dispatch on job type and incremental flag. -/
def sync_job (job : Job) (env : SyncEnv) (dryRun : Bool) :
    SyncReport × List SyncEffect :=
  if job.job_type = .dataset ∧ ¬job.incremental_enabled then
    sync_full_backup job env dryRun
  else
    sync_incremental_backup job env dryRun

/-! ## Claim theorems -/

/-- Claim C8: the retry backoff delay equals `min(max_delay, base * 2 ^
attempt)` plus a uniform jitter drawn from `U(0, 0.1 * delay)`; it therefore
lies in `[delay, 1.1 * delay]` for the clamped delay, and in
`[base * 2 ^ i, 1.1 * base * 2 ^ i]` whenever the clamp is inactive.
Python floats are modelled as exact rationals. -/
theorem C8_backoff_bounds (attempt : Nat) (base max_delay draw : ℚ)
    (hdraw0 : 0 ≤ draw)
    (hdraw1 : draw ≤ min (base * 2 ^ attempt) max_delay * (1 / 10)) :
    exponential_backoff attempt base max_delay true draw =
      min (base * 2 ^ attempt) max_delay + draw ∧
    min (base * 2 ^ attempt) max_delay ≤
      exponential_backoff attempt base max_delay true draw ∧
    exponential_backoff attempt base max_delay true draw ≤
      min (base * 2 ^ attempt) max_delay * (11 / 10) ∧
    (base * 2 ^ attempt ≤ max_delay →
      base * 2 ^ attempt ≤ exponential_backoff attempt base max_delay true draw ∧
      exponential_backoff attempt base max_delay true draw ≤
        base * 2 ^ attempt * (11 / 10)) := by
  have hdef : exponential_backoff attempt base max_delay true draw =
      min (base * 2 ^ attempt) max_delay + draw := by
    simp [exponential_backoff]
  refine ⟨hdef, ?_, ?_, ?_⟩
  · rw [hdef]; linarith
  · rw [hdef]; linarith
  · intro hle
    have hmin : min (base * 2 ^ attempt) max_delay = base * 2 ^ attempt :=
      min_eq_left hle
    rw [hdef, hmin]
    rw [hmin] at hdraw1
    constructor <;> linarith

/-- Witness for C8 at attempt 1, base 2, max delay 60, jitter draw 1/10. -/
theorem C8_backoff_bounds_witness :
    exponential_backoff 1 2 60 true (1 / 10) =
      min ((2 : ℚ) * 2 ^ 1) 60 + 1 / 10 ∧
    min ((2 : ℚ) * 2 ^ 1) 60 ≤ exponential_backoff 1 2 60 true (1 / 10) ∧
    exponential_backoff 1 2 60 true (1 / 10) ≤
      min ((2 : ℚ) * 2 ^ 1) 60 * (11 / 10) ∧
    ((2 : ℚ) * 2 ^ 1 ≤ 60 →
      (2 : ℚ) * 2 ^ 1 ≤ exponential_backoff 1 2 60 true (1 / 10) ∧
      exponential_backoff 1 2 60 true (1 / 10) ≤ (2 : ℚ) * 2 ^ 1 * (11 / 10)) :=
  C8_backoff_bounds 1 2 60 (1 / 10) (by norm_num) (by norm_num)

/-- Claim C10: the retryable-error classifier returns `true` for every
exception whose class derives from `OSError` (the `RETRYABLE_EXCEPTIONS`
tuple contains `OSError` itself), so in particular for `PermissionError` and
`FileNotFoundError`, which are `OSError` subclasses in Python 3. -/
theorem C10_oserror_retryable (e : PyError)
    (h : isinstance e .OSError = true) :
    is_retryable_error e = true := by
  have hany : isinstanceAny e RETRYABLE_EXCEPTIONS = true := by
    simp only [isinstanceAny, RETRYABLE_EXCEPTIONS, List.any_eq_true]
    exact ⟨.OSError, by simp, h⟩
  simp [is_retryable_error, hany]

/-- Witness for C10: a `PermissionError` and a `FileNotFoundError` raised
during an upload attempt are both classified retryable. -/
theorem C10_oserror_retryable_witness :
    is_retryable_error
      { cls := .PermissionError, msgLower := "permission denied",
        errorCode := none, httpStatus := none } = true ∧
    is_retryable_error
      { cls := .FileNotFoundError, msgLower := "no such file or directory",
        errorCode := none, httpStatus := none } = true :=
  ⟨C10_oserror_retryable _ (by decide), C10_oserror_retryable _ (by decide)⟩

/-- Claim C2: when the engine reports upload errors, the worker marks the run
SUCCESS exactly when `files_count / total_files_scanned ≥ 95 / 100`, FAILED
otherwise; and a SUCCESS with failed uploads carries the partial-success
warning in `error_message`.  The float success rate is modelled as an exact
rational. -/
theorem C2_partial_success_threshold (r : IncResult)
    (herr : r.upload_errors.getD 0 > 0)
    (htot : 0 < r.total_files_scanned.getD r.files_count) :
    ((finalizeRun r).status = .SUCCESS ↔
      (95 : ℚ) / 100 ≤
        (r.files_count : ℚ) / (r.total_files_scanned.getD r.files_count : ℚ)) ∧
    ((finalizeRun r).status = .SUCCESS ∨ (finalizeRun r).status = .FAILED) ∧
    ((finalizeRun r).status = .SUCCESS →
      (finalizeRun r).error_message =
        some (.partialSuccessWarning (r.upload_errors.getD 0)
          ((r.files_count : ℚ) /
            (r.total_files_scanned.getD r.files_count : ℚ) * 100))) := by
  by_cases hlt :
      (r.files_count : ℚ) / (r.total_files_scanned.getD r.files_count : ℚ) *
        100 < 95
  · have hfin : finalizeRun r =
        { status := .FAILED,
          error_message := some (.partialFailed (r.upload_errors.getD 0)
            ((r.files_count : ℚ) /
              (r.total_files_scanned.getD r.files_count : ℚ) * 100)) } := by
      simp [finalizeRun, gt_iff_lt, htot, herr, hlt]
    rw [hfin]
    refine ⟨?_, Or.inr rfl, ?_⟩
    · constructor
      · intro hcontra; exact absurd hcontra (by simp)
      · intro hge; exfalso; linarith
    · intro hcontra; exact absurd hcontra (by simp)
  · have hnlt : ¬ ((r.files_count : ℚ) /
        (r.total_files_scanned.getD r.files_count : ℚ) * 100 < 95) := hlt
    have hge95 : (95 : ℚ) ≤
        (r.files_count : ℚ) /
          (r.total_files_scanned.getD r.files_count : ℚ) * 100 :=
      not_lt.mp hnlt
    have hfin : finalizeRun r =
        { status := .SUCCESS,
          error_message := some (.partialSuccessWarning (r.upload_errors.getD 0)
            ((r.files_count : ℚ) /
              (r.total_files_scanned.getD r.files_count : ℚ) * 100)) } := by
      simp [finalizeRun, gt_iff_lt, htot, herr, hnlt]
    rw [hfin]
    refine ⟨?_, Or.inl rfl, fun _ => rfl⟩
    constructor
    · intro _; linarith
    · intro _; rfl

/-- Witness for C2: 19 of 20 scanned files uploaded with 1 failure is exactly
the 95% threshold and finalises as SUCCESS with the warning marker. -/
theorem C2_partial_success_threshold_witness :
    ((finalizeRun
      { snapshot_id := "s", size_bytes := 10, files_count := 19,
        s3_key := some "p/j/", manifest_key := some "p/j.manifest.json",
        incremental := true, files_unchanged := 0,
        total_files_scanned := some 20, upload_errors := some 1 }).status =
        .SUCCESS ↔
      (95 : ℚ) / 100 ≤ ((19 : Nat) : ℚ) / (((some 20 : Option Nat).getD 19 : Nat) : ℚ)) ∧
    ((finalizeRun
      { snapshot_id := "s", size_bytes := 10, files_count := 19,
        s3_key := some "p/j/", manifest_key := some "p/j.manifest.json",
        incremental := true, files_unchanged := 0,
        total_files_scanned := some 20, upload_errors := some 1 }).status =
        .SUCCESS ∨
     (finalizeRun
      { snapshot_id := "s", size_bytes := 10, files_count := 19,
        s3_key := some "p/j/", manifest_key := some "p/j.manifest.json",
        incremental := true, files_unchanged := 0,
        total_files_scanned := some 20, upload_errors := some 1 }).status =
        .FAILED) ∧
    ((finalizeRun
      { snapshot_id := "s", size_bytes := 10, files_count := 19,
        s3_key := some "p/j/", manifest_key := some "p/j.manifest.json",
        incremental := true, files_unchanged := 0,
        total_files_scanned := some 20, upload_errors := some 1 }).status =
        .SUCCESS →
      (finalizeRun
        { snapshot_id := "s", size_bytes := 10, files_count := 19,
          s3_key := some "p/j/", manifest_key := some "p/j.manifest.json",
          incremental := true, files_unchanged := 0,
          total_files_scanned := some 20, upload_errors := some 1 }).error_message =
        some (.partialSuccessWarning ((some 1 : Option Nat).getD 0)
          (((19 : Nat) : ℚ) / (((some 20 : Option Nat).getD 19 : Nat) : ℚ) * 100))) :=
  C2_partial_success_threshold _ (by decide) (by decide)

/-- A recovered run is never RUNNING. -/
theorem recoverRun_not_running (now : Nat) (r : RunRow) :
    (recoverRun now r).status ≠ .RUNNING := by
  unfold recoverRun
  by_cases h : r.status = .RUNNING
  · simp [h]
  · simp [h]

/-- Recovering a run twice is the same as recovering it once. -/
theorem recoverRun_idem (now now2 : Nat) (r : RunRow) :
    recoverRun now2 (recoverRun now r) = recoverRun now r := by
  unfold recoverRun
  by_cases h : r.status = .RUNNING <;> simp [h]

/-- Claim C3: on worker construction every RUNNING run (and only RUNNING runs)
is transitioned to FAILED with the interruption message, its completion time
and duration set, the owning job's `last_run_status` becomes FAILED in the
same commit, and running the recovery a second time changes nothing (each
orphan is recovered exactly once). -/
theorem C3_orphan_recovery (now now2 : Nat) (runs : List RunRow)
    (jobs : List JobRow) :
    (recover_orphaned_backups now runs jobs).1 = runs.map (recoverRun now) ∧
    (recover_orphaned_backups now runs jobs).2 = jobs.map (recoverJob runs) ∧
    (∀ r : RunRow, r.status = .RUNNING →
      (recoverRun now r).status = .FAILED ∧
      (recoverRun now r).completed_at = some now ∧
      (recoverRun now r).error_message = some .interruptedRestart ∧
      ∀ s, r.started_at = some s →
        (recoverRun now r).duration_seconds = some ((now : Int) - (s : Int))) ∧
    (∀ r : RunRow, r.status ≠ .RUNNING → recoverRun now r = r) ∧
    (∀ j : JobRow, (∃ r ∈ runs, r.status = .RUNNING ∧ r.job_id = j.id) →
      (recoverJob runs j).last_run_status = some .FAILED) ∧
    (∀ j : JobRow, (¬ ∃ r ∈ runs, r.status = .RUNNING ∧ r.job_id = j.id) →
      recoverJob runs j = j) ∧
    recover_orphaned_backups now2 (recover_orphaned_backups now runs jobs).1
        (recover_orphaned_backups now runs jobs).2 =
      ((recover_orphaned_backups now runs jobs).1,
       (recover_orphaned_backups now runs jobs).2) := by
  refine ⟨rfl, rfl, ?_, ?_, ?_, ?_, ?_⟩
  · intro r hr
    refine ⟨by simp [recoverRun, hr], by simp [recoverRun, hr],
      by simp [recoverRun, hr], ?_⟩
    intro s hs
    simp [recoverRun, hr, hs]
  · intro r hr
    simp [recoverRun, hr]
  · intro j hj
    obtain ⟨r, hmem, hrun, hid⟩ := hj
    have hany : runs.any (fun r => r.status = .RUNNING && r.job_id = j.id) =
        true := by
      rw [List.any_eq_true]
      exact ⟨r, hmem, by simp [hrun, hid]⟩
    simp [recoverJob, hany]
  · intro j hj
    have hany : runs.any (fun r => r.status = .RUNNING && r.job_id = j.id) =
        false := by
      rw [List.any_eq_false]
      intro r hmem
      simp only [Bool.and_eq_true, decide_eq_true_eq]
      intro hc
      exact hj ⟨r, hmem, hc⟩
    simp [recoverJob, hany]
  · unfold recover_orphaned_backups
    refine Prod.ext ?_ ?_
    · simp only [List.map_map]
      exact List.map_congr_left (fun r _ => recoverRun_idem now now2 r)
    · have hfix : ∀ j ∈ List.map (recoverJob runs) jobs,
          recoverJob (List.map (recoverRun now) runs) j = id j := by
        intro j _
        have hany : (runs.map (recoverRun now)).any
            (fun r => r.status = .RUNNING && r.job_id = j.id) = false := by
          rw [List.any_eq_false]
          intro r hmem
          simp only [Bool.and_eq_true, decide_eq_true_eq]
          intro hc
          obtain ⟨r0, _, hr0⟩ := List.mem_map.mp hmem
          exact recoverRun_not_running now r0 (hr0 ▸ hc.1)
        simp [recoverJob, hany]
      simp only []
      rw [List.map_congr_left hfix, List.map_id]

/-- Witness for C3: a concrete RUNNING run owned by job 7 is recovered to
FAILED with the interruption message, and the job's last-run status becomes
FAILED. -/
theorem C3_orphan_recovery_witness :
    (recoverRun 100
      { id := 1, job_id := 7, status := .RUNNING, started_at := some 40,
        completed_at := none, duration_seconds := none,
        error_message := none }).status = .FAILED ∧
    (recoverRun 100
      { id := 1, job_id := 7, status := .RUNNING, started_at := some 40,
        completed_at := none, duration_seconds := none,
        error_message := none }).error_message = some .interruptedRestart ∧
    (recoverRun 100
      { id := 1, job_id := 7, status := .RUNNING, started_at := some 40,
        completed_at := none, duration_seconds := none,
        error_message := none }).duration_seconds = some 60 ∧
    (recoverJob
      [{ id := 1, job_id := 7, status := .RUNNING, started_at := some 40,
         completed_at := none, duration_seconds := none,
         error_message := none }]
      { id := 7, last_run_status := some .RUNNING }).last_run_status =
      some .FAILED := by
  have h := C3_orphan_recovery 100 200
    [{ id := 1, job_id := 7, status := .RUNNING, started_at := some 40,
       completed_at := none, duration_seconds := none, error_message := none }]
    [{ id := 7, last_run_status := some .RUNNING }]
  obtain ⟨-, -, hrun, -, hjob, -, -⟩ := h
  have hr := hrun
    { id := 1, job_id := 7, status := .RUNNING, started_at := some 40,
      completed_at := none, duration_seconds := none, error_message := none }
    rfl
  refine ⟨hr.1, hr.2.2.1, ?_, ?_⟩
  · have := hr.2.2.2 40 rfl
    simpa using this
  · exact hjob { id := 7, last_run_status := some .RUNNING }
      ⟨{ id := 1, job_id := 7, status := .RUNNING, started_at := some 40,
         completed_at := none, duration_seconds := none,
         error_message := none }, by simp, rfl, rfl⟩

/-- Claim C1 (code bug): for an encryption-enabled job the first run uploads
the manifest as Fernet ciphertext under the canonical key, but
`load_previous_manifest` feeds the downloaded bytes straight to `json.load`
without decrypting, so the parse fails and the second run gets the empty map:
the unchanged file is classified as new and re-uploaded, although the
decrypt-then-parse order used by the sync engine's `_load_manifest` recovers
the document. -/
theorem C1_encrypted_manifest_treated_as_new :
    let job1 : Job :=
      { id := 1, name := "j", job_type := .dataset, s3_bucket := "b",
        s3Prefix := "p", storage_class := .DEEP_ARCHIVE,
        encryption_enabled := true, incremental_enabled := true }
    let sig1 : Sig := { size := 5, mtime := 7, hash := "h" }
    let doc1 : ManifestDoc :=
      { snapshot_id := "run1", job_id := 1, total_files := 1,
        files := [("a", { size := some 5, mtime := some 7, hash := some "h",
                          s3_key := some "p/j/a" })] }
    let store2 : BlobStore := fun k =>
      if k = "p/j.manifest.json" then some (Blob.encrypted (Blob.json doc1))
      else none
    let snap1 : SnapRow :=
      { s3_key := some "p/j/", manifest_key := some "p/j.manifest.json",
        retained := true }
    ((incBackupRun job1 "run1" [] [("a", some sig1)] (fun _ => true)
        (fun _ => true)).2.map (fun c => c.content)) =
      [none, some (Blob.encrypted (Blob.json doc1))] ∧
    load_previous_manifest (some snap1) store2 = [] ∧
    doc1.files ≠ [] ∧
    needsBackup (load_previous_manifest (some snap1) store2) "a" sig1 = true ∧
    needsBackup doc1.files "a" sig1 = false ∧
    sync_load_manifest true (store2 "p/j.manifest.json") = some doc1 ∧
    (incBackupRun job1 "run2" (load_previous_manifest (some snap1) store2)
        [("a", some sig1)] (fun _ => true) (fun _ => true)).1.files_count = 1 := by
  decide

/-- Claim C4 (code bug): for a job whose payload class is DEEP_ARCHIVE, the
backup engine writes the manifest with storage class STANDARD, but the sync
engine's `_save_manifest` uploads the rebuilt manifest with the job's payload
class: reconciling such a job with a missing manifest (non-dry run) performs
an object write of the manifest with class DEEP_ARCHIVE, not STANDARD. -/
theorem C4_sync_manifest_cold_storage_class :
    let jb4 : Job :=
      { id := 4, name := "j", job_type := .dataset, s3_bucket := "b",
        s3Prefix := "p", storage_class := .DEEP_ARCHIVE,
        encryption_enabled := false, incremental_enabled := true }
    let snap4 : SnapRow :=
      { s3_key := some "p/j/", manifest_key := some "p/j.manifest.json",
        retained := true }
    let env4 : SyncEnv :=
      { latestSnapshot := some snap4,
        objects := [{ key := "p/j/a", size := 5 }],
        manifestBlob := none, pageSize := 10 }
    ((incBackupRun jb4 "snap" [] [("a", some { size := 5, mtime := 7, hash := "h" })]
        (fun _ => true) (fun _ => true)).2.map
        (fun c => (c.key, c.storage_class))) =
      [("p/j/a", "DEEP_ARCHIVE"), ("p/j.manifest.json", "STANDARD")] ∧
    (sync_save_manifest jb4
        { snapshot_id := "s", job_id := 4, total_files := 0, files := [] }
        "p/j.manifest.json").storage_class = "DEEP_ARCHIVE" ∧
    (sync_incremental_backup jb4 env4 false).2 =
      [.s3Upload "p/j.manifest.json" "DEEP_ARCHIVE"] ∧
    ("DEEP_ARCHIVE" : String) ≠ "STANDARD" := by
  decide

/-- Unfolding `alookup` on a cons cell. -/
theorem alookup_cons (p : String × α) (rest : List (String × α)) (k : String) :
    alookup k (p :: rest) = if p.1 = k then some p.2 else alookup k rest := rfl

/-- Looking up a key in a map where it is absent skips to the appended tail. -/
theorem alookup_append_of_none (m l : List (String × α)) (k : String)
    (h : alookup k m = none) : alookup k (m ++ l) = alookup k l := by
  induction m with
  | nil => rfl
  | cons p rest ih =>
    rw [alookup_cons] at h
    by_cases hpk : p.1 = k
    · rw [if_pos hpk] at h; cases h
    · rw [if_neg hpk] at h
      rw [List.cons_append, alookup_cons, if_neg hpk]
      exact ih h

/-- Looking up a present key ignores the appended tail. -/
theorem alookup_append_of_isSome (m l : List (String × α)) (k : String)
    (h : (alookup k m).isSome) : alookup k (m ++ l) = alookup k m := by
  induction m with
  | nil => simp [alookup] at h
  | cons p rest ih =>
    rw [alookup_cons] at h
    rw [List.cons_append, alookup_cons, alookup_cons]
    by_cases hpk : p.1 = k
    · rw [if_pos hpk, if_pos hpk]
    · rw [if_neg hpk] at h
      rw [if_neg hpk, if_neg hpk]
      exact ih h

/-- Replacing the bindings of `k` changes only the lookup of `k`. -/
theorem alookup_map_replace (m : List (String × α)) (k : String) (v : α) :
    alookup k (m.map (fun p => if p.1 = k then (k, v) else p)) =
      (alookup k m).map (fun _ => v) := by
  induction m with
  | nil => rfl
  | cons p rest ih =>
    by_cases hpk : p.1 = k
    · simp [List.map_cons, alookup_cons, hpk]
    · simp [List.map_cons, alookup_cons, hpk, ih]

/-- Replacing the bindings of `k` leaves other lookups unchanged. -/
theorem alookup_map_replace_ne (m : List (String × α)) (k k' : String) (v : α)
    (hk : k' ≠ k) :
    alookup k' (m.map (fun p => if p.1 = k then (k, v) else p)) =
      alookup k' m := by
  induction m with
  | nil => rfl
  | cons p rest ih =>
    by_cases hpk : p.1 = k
    · have h1 : p.1 ≠ k' := by rw [hpk]; exact fun hc => hk hc.symm
      have h2 : ¬ ((k : String) = k') := fun hc => hk hc.symm
      simp [List.map_cons, alookup_cons, hpk, h1, h2, ih]
    · by_cases hpk' : p.1 = k'
      · simp [List.map_cons, alookup_cons, hpk, hpk', hk]
      · simp [List.map_cons, alookup_cons, hpk, hpk', ih]

/-- Inserting a key makes it present with the inserted value. -/
theorem alookup_ainsert_self (m : List (String × α)) (k : String) (v : α) :
    alookup k (ainsert m k v) = some v := by
  by_cases h : (alookup k m).isSome
  · obtain ⟨w, hw⟩ := Option.isSome_iff_exists.mp h
    simp only [ainsert, h, if_true]
    rw [alookup_map_replace, hw]
    rfl
  · rw [show ainsert m k v = m ++ [(k, v)] from by simp [ainsert, h]]
    rw [alookup_append_of_none m _ k (Option.not_isSome_iff_eq_none.mp h)]
    simp [alookup_cons, alookup]

/-- Insertion preserves presence of every key. -/
theorem alookup_ainsert_isSome (m : List (String × α)) (k k' : String) (v : α)
    (h : (alookup k' m).isSome) : (alookup k' (ainsert m k v)).isSome := by
  by_cases hk : k' = k
  · subst hk; rw [alookup_ainsert_self]; rfl
  · by_cases hpresent : (alookup k m).isSome
    · simp only [ainsert, hpresent, if_true]
      rw [alookup_map_replace_ne m k k' v hk]
      exact h
    · rw [show ainsert m k v = m ++ [(k, v)] from by simp [ainsert, hpresent]]
      rw [alookup_append_of_isSome m _ k' h]
      exact h

/-- Folding a page of objects into the dict keeps every present key and adds
every key of the page. -/
theorem alookup_foldPage_isSome (page : List S3Object)
    (acc : List (String × Nat)) (k : String)
    (h : (alookup k acc).isSome ∨ ∃ o ∈ page, o.key = k) :
    (alookup k (foldPage acc page)).isSome := by
  induction page generalizing acc with
  | nil =>
    rcases h with h | ⟨o, ho, _⟩
    · exact h
    · exact absurd ho (List.not_mem_nil o)
  | cons o rest ih =>
    unfold foldPage at ih ⊢
    rw [List.foldl_cons]
    rcases h with h | ⟨o', ho', hk⟩
    · exact ih _ (Or.inl (alookup_ainsert_isSome _ _ _ _ h))
    · rcases List.mem_cons.mp ho' with rfl | hmem
      · refine ih _ (Or.inl ?_)
        rw [← hk, alookup_ainsert_self]; rfl
      · exact ih _ (Or.inr ⟨o', hmem, hk⟩)

/-- Folding all pages keeps every present key and adds every listed key. -/
theorem alookup_foldPages_isSome (pages : List (List S3Object))
    (acc : List (String × Nat)) (k : String)
    (h : (alookup k acc).isSome ∨ ∃ p ∈ pages, ∃ o ∈ p, o.key = k) :
    (alookup k (pages.foldl foldPage acc)).isSome := by
  induction pages generalizing acc with
  | nil =>
    rcases h with h | ⟨p, hp, _⟩
    · exact h
    · exact absurd hp (List.not_mem_nil p)
  | cons page rest ih =>
    rw [List.foldl_cons]
    rcases h with h | ⟨p, hp, o, ho, hk⟩
    · exact ih _ (Or.inl (alookup_foldPage_isSome _ _ _ (Or.inl h)))
    · rcases List.mem_cons.mp hp with rfl | hmem
      · exact ih _ (Or.inl (alookup_foldPage_isSome _ _ _ (Or.inr ⟨o, ho, hk⟩)))
      · exact ih _ (Or.inr ⟨p, hmem, o, ho, hk⟩)

/-- Every element of a listing lands in one of its pages. -/
theorem exists_mem_chunksGo (n : Nat) (fuel : Nat) (l : List α) (x : α)
    (hn : 1 ≤ n) (hl : l.length ≤ fuel) (hx : x ∈ l) :
    ∃ p ∈ chunksGo n fuel l, x ∈ p := by
  induction fuel generalizing l with
  | zero =>
    have : l = [] := List.length_eq_zero.mp (Nat.le_zero.mp hl)
    subst this
    exact absurd hx (List.not_mem_nil x)
  | succ fuel ih =>
    cases l with
    | nil => exact absurd hx (List.not_mem_nil x)
    | cons c rest =>
      have hx' : x ∈ (c :: rest).take n ++ (c :: rest).drop n := by
        rw [List.take_append_drop]; exact hx
      unfold chunksGo
      rcases List.mem_append.mp hx' with htake | hdrop
      · exact ⟨(c :: rest).take n, List.mem_cons_self _ _, htake⟩
      · have hlen : ((c :: rest).drop n).length ≤ fuel := by
          rw [List.length_drop]
          have : (c :: rest).length ≤ fuel + 1 := hl
          omega
        obtain ⟨p, hpmem, hxp⟩ := ih _ hlen hdrop
        exact ⟨p, List.mem_cons_of_mem _ hpmem, hxp⟩

/-- Every element of a listing is in some chunk. -/
theorem exists_mem_chunks (n : Nat) (l : List α) (x : α) (hn : 1 ≤ n)
    (hx : x ∈ l) : ∃ p ∈ chunks n l, x ∈ p :=
  exists_mem_chunksGo n l.length l x hn le_rfl hx

/-- Claim C5 (amended): the reconciliation listing `_list_s3_files` pages
through the whole prefix and is complete — every stored object whose key has
the prefix appears in it — while `S3Client.list_objects` returns at most
`limit` objects from a single page. -/
theorem C5_sync_listing_complete (pageSize limit : Nat) (store : List S3Object)
    (pre : String) (o : S3Object) (hp : 1 ≤ pageSize) (ho : o ∈ store)
    (hpre : strIsPrefixOf pre o.key = true) :
    (alookup o.key (list_s3_files pageSize store pre)).isSome = true ∧
    (list_objects store pre limit).length ≤ limit := by
  constructor
  · unfold list_s3_files paginatePages
    have hof : o ∈ store.filter (fun o => strIsPrefixOf pre o.key) :=
      List.mem_filter.mpr ⟨ho, hpre⟩
    obtain ⟨p, hpmem, hop⟩ := exists_mem_chunks pageSize _ o hp hof
    exact alookup_foldPages_isSome _ [] _ (Or.inr ⟨p, hpmem, o, hop, rfl⟩)
  · unfold list_objects
    rw [List.length_take]
    exact min_le_left _ _

/-- Witness for C5: with page size 2 over three objects under the prefix, the
reconciliation listing still contains the third key, and the client listing
with `limit = 2` has at most two entries. -/
theorem C5_sync_listing_complete_witness :
    (alookup "p/j/c"
      (list_s3_files 2
        [{ key := "p/j/a", size := 1 }, { key := "p/j/b", size := 2 },
         { key := "p/j/c", size := 3 }] "p/j/")).isSome = true ∧
    (list_objects
      [{ key := "p/j/a", size := 1 }, { key := "p/j/b", size := 2 },
       { key := "p/j/c", size := 3 }] "p/j/" 2).length ≤ 2 :=
  C5_sync_listing_complete 2 2 _ "p/j/" { key := "p/j/c", size := 3 }
    (by decide) (by decide) (by decide)

/-- Counterexample to claim C5 as stated: `S3Client.list_objects` does not
return every object under the prefix — with three matching objects and
`limit = 2` the third is dropped (the call makes a single page request and
never follows a continuation token), while `_list_s3_files` does return it. -/
theorem C5_list_objects_incomplete :
    let store5 : List S3Object :=
      [{ key := "p/j/a", size := 1 }, { key := "p/j/b", size := 2 },
       { key := "p/j/c", size := 3 }]
    strIsPrefixOf "p/j/" "p/j/c" = true ∧
    ({ key := "p/j/c", size := 3 } : S3Object) ∈ store5 ∧
    ({ key := "p/j/c", size := 3 } : S3Object) ∉ list_objects store5 "p/j/" 2 ∧
    (list_objects store5 "p/j/" 2).length = 2 ∧
    (alookup "p/j/c" (list_s3_files 2 store5 "p/j/")).isSome = true := by
  decide

/-- Inserting a fresh key appends it. -/
theorem ainsert_eq_append_of_none (m : List (String × α)) (k : String) (v : α)
    (h : alookup k m = none) : ainsert m k v = m ++ [(k, v)] := by
  simp [ainsert, h]

/-- A singleton map holds no other key. -/
theorem alookup_singleton_ne (k k' : String) (v : α) (h : k' ≠ k) :
    alookup k' [(k, v)] = none := by
  rw [alookup_cons, if_neg (fun hc => h hc.symm)]
  rfl

/-- The scan-phase counting invariant: over scan items with pairwise distinct
relative paths, all of them fresh for the accumulator, the fold adds one
scanned file per signature-bearing item, split between the unchanged counter
and the to-backup map. -/
theorem scanFold_counts (previousFiles : Manifest) (items : List ScanItem)
    (acc : ScanAcc) (hnd : (items.map Prod.fst).Nodup)
    (hfresh : ∀ p ∈ items, alookup p.1 acc.files_to_backup = none) :
    (items.foldl (scanStep previousFiles) acc).files_unchanged +
        (items.foldl (scanStep previousFiles) acc).files_to_backup.length =
      acc.files_unchanged + acc.files_to_backup.length +
        (items.filter (fun i => i.2.isSome)).length ∧
    (items.foldl (scanStep previousFiles) acc).file_count =
      acc.file_count + (items.filter (fun i => i.2.isSome)).length := by
  induction items generalizing acc with
  | nil => simp
  | cons item rest ih =>
    rw [List.foldl_cons]
    obtain ⟨k, osig⟩ := item
    rw [List.map_cons] at hnd
    obtain ⟨hk, hnd'⟩ := List.nodup_cons.mp hnd
    cases osig with
    | none =>
      have hstep : scanStep previousFiles acc (k, none) =
          { acc with skipped_files := acc.skipped_files + 1 } := rfl
      rw [hstep]
      have := ih { acc with skipped_files := acc.skipped_files + 1 } hnd'
        (fun p hp => hfresh p (List.mem_cons_of_mem _ hp))
      simpa using this
    | some sig =>
      by_cases hneed : needsBackup previousFiles k sig = true
      · have hstep : scanStep previousFiles acc (k, some sig) =
            { acc with
              file_count := acc.file_count + 1,
              total_size := acc.total_size + sig.size,
              files_to_backup := ainsert acc.files_to_backup k sig,
              new_size := acc.new_size + sig.size } := by
          simp [scanStep, hneed]
        rw [hstep]
        have hins : ainsert acc.files_to_backup k sig =
            acc.files_to_backup ++ [(k, sig)] :=
          ainsert_eq_append_of_none _ _ _ (hfresh (k, some sig) (List.mem_cons_self _ _))
        have hfresh' : ∀ p ∈ rest,
            alookup p.1 (ainsert acc.files_to_backup k sig) = none := by
          intro p hp
          rw [hins]
          have hne : p.1 ≠ k := fun hc =>
            hk (by rw [← hc]; exact List.mem_map.mpr ⟨p, hp, rfl⟩)
          rw [alookup_append_of_none _ _ _
            (hfresh p (List.mem_cons_of_mem _ hp))]
          exact alookup_singleton_ne k p.1 sig hne
        rw [hins]
        rw [hins] at hfresh'
        have := ih
          { acc with
            file_count := acc.file_count + 1,
            total_size := acc.total_size + sig.size,
            files_to_backup := acc.files_to_backup ++ [(k, sig)],
            new_size := acc.new_size + sig.size }
          hnd' hfresh'
        simp only [List.length_append, List.length_cons, List.length_nil] at this
        simp only [List.filter_cons, Option.isSome_some, if_true]
        simp only [List.length_cons]
        try dsimp only at this ⊢
        omega
      · have hstep : scanStep previousFiles acc (k, some sig) =
            { acc with
              file_count := acc.file_count + 1,
              total_size := acc.total_size + sig.size,
              files_unchanged := acc.files_unchanged + 1 } := by
          simp [scanStep, hneed]
        rw [hstep]
        have := ih
          { acc with
            file_count := acc.file_count + 1,
            total_size := acc.total_size + sig.size,
            files_unchanged := acc.files_unchanged + 1 }
          hnd' (fun p hp => hfresh p (List.mem_cons_of_mem _ hp))
        simp only [List.filter_cons, Option.isSome_some, if_true]
        simp only [List.length_cons]
        try dsimp only at this ⊢
        omega

/-- Filtering with an always-true predicate keeps the list. -/
theorem filter_all_true (l : List α) (p : α → Bool)
    (h : ∀ a ∈ l, p a = true) : l.filter p = l := by
  induction l with
  | nil => rfl
  | cons a rest ih =>
    rw [List.filter_cons, if_pos (h a (List.mem_cons_self _ _))]
    rw [ih (fun b hb => h b (List.mem_cons_of_mem _ hb))]

/-- Filtering with an always-false predicate drops everything. -/
theorem filter_all_false (l : List α) (p : α → Bool)
    (h : ∀ a ∈ l, p a = false) : l.filter p = [] := by
  induction l with
  | nil => rfl
  | cons a rest ih =>
    rw [List.filter_cons, h a (List.mem_cons_self _ _)]
    exact ih (fun b hb => h b (List.mem_cons_of_mem _ hb))

/-- Claim C6 (amended): for a run in which every scheduled file is still
present and every upload succeeds (scanned paths pairwise distinct), the
engine's result satisfies `files_unchanged + files_count =
total_files_scanned` and reports zero upload errors; the upload-failure runs
are excluded (see the counterexample) and the no-op result carries no
`total_files_scanned` key at all, which the `some t` hypothesis reflects. -/
theorem C6_counters_identity (job : Job) (snapshotId : String)
    (previousFiles : Manifest) (items : List ScanItem)
    (found uploadOk : String → Bool) (hnd : (items.map Prod.fst).Nodup)
    (hfound : ∀ s, found s = true) (hok : ∀ s, uploadOk s = true) :
    (∀ t, (incBackupRun job snapshotId previousFiles items found
        uploadOk).1.total_files_scanned = some t →
      (incBackupRun job snapshotId previousFiles items found
          uploadOk).1.files_unchanged +
        (incBackupRun job snapshotId previousFiles items found
          uploadOk).1.files_count = t) ∧
    (incBackupRun job snapshotId previousFiles items found
        uploadOk).1.upload_errors.getD 0 = 0 := by
  have h1 : (scanAll previousFiles items).files_unchanged +
      (scanAll previousFiles items).files_to_backup.length =
      (items.filter (fun i => i.2.isSome)).length := by
    have := (scanFold_counts previousFiles items ScanAcc.empty hnd
      (fun p _ => rfl)).1
    simpa [scanAll, ScanAcc.empty] using this
  have h2 : (scanAll previousFiles items).file_count =
      (items.filter (fun i => i.2.isSome)).length := by
    have := (scanFold_counts previousFiles items ScanAcc.empty hnd
      (fun p _ => rfl)).2
    simpa [scanAll, ScanAcc.empty] using this
  by_cases hzero :
      (scanAll previousFiles items).files_to_backup.length = 0
  · constructor
    · intro t ht
      exfalso
      simp only [incBackupRun, hzero, if_true] at ht
      cases ht
    · simp [incBackupRun, hzero]
  · have htasks : (scanAll previousFiles items).files_to_backup.filter
        (fun p => found p.1) = (scanAll previousFiles items).files_to_backup :=
      filter_all_true _ _ (fun a _ => hfound a.1)
    have hupl : ((scanAll previousFiles items).files_to_backup.filter
        (fun p => found p.1)).filter (fun p => uploadOk p.1) =
        (scanAll previousFiles items).files_to_backup := by
      rw [htasks]
      exact filter_all_true _ _ (fun a _ => hok a.1)
    have hfail : ((scanAll previousFiles items).files_to_backup.filter
        (fun p => found p.1)).filter (fun p => !uploadOk p.1) = [] := by
      rw [htasks]
      exact filter_all_false _ _ (fun a _ => by rw [hok a.1]; rfl)
    constructor
    · intro t ht
      simp only [incBackupRun, hzero, if_false] at ht ⊢
      simp only [hupl, List.length_map] at ht ⊢
      cases ht
      omega
    · simp only [incBackupRun, hzero, if_false, hfail]
      rfl

/-- Witness for C6: two distinct scanned files, one unchanged and one new,
all uploads succeeding: `1 + 1 = 2` scanned files with zero upload errors. -/
theorem C6_counters_identity_witness :
    (incBackupRun
      { id := 6, name := "j", job_type := .dataset, s3_bucket := "b",
        s3Prefix := "p", storage_class := .STANDARD,
        encryption_enabled := false, incremental_enabled := true }
      "snap"
      [("a", { size := some 5, mtime := some 7, hash := some "h",
               s3_key := some "p/j/a" })]
      [("a", some { size := 5, mtime := 7, hash := "h" }),
       ("b", some { size := 3, mtime := 2, hash := "g" })]
      (fun _ => true) (fun _ => true)).1.files_unchanged +
      (incBackupRun
        { id := 6, name := "j", job_type := .dataset, s3_bucket := "b",
          s3Prefix := "p", storage_class := .STANDARD,
          encryption_enabled := false, incremental_enabled := true }
        "snap"
        [("a", { size := some 5, mtime := some 7, hash := some "h",
                 s3_key := some "p/j/a" })]
        [("a", some { size := 5, mtime := 7, hash := "h" }),
         ("b", some { size := 3, mtime := 2, hash := "g" })]
        (fun _ => true) (fun _ => true)).1.files_count = 2 := by
  have h := C6_counters_identity
    { id := 6, name := "j", job_type := .dataset, s3_bucket := "b",
      s3Prefix := "p", storage_class := .STANDARD,
      encryption_enabled := false, incremental_enabled := true }
    "snap"
    [("a", { size := some 5, mtime := some 7, hash := some "h",
             s3_key := some "p/j/a" })]
    [("a", some { size := 5, mtime := 7, hash := "h" }),
     ("b", some { size := 3, mtime := 2, hash := "g" })]
    (fun _ => true) (fun _ => true) (by decide) (fun _ => rfl) (fun _ => rfl)
  exact h.1 2 (by decide)

/-- Counterexample to claim C6 as stated: with one unchanged file and one
changed file whose upload fails permanently, the engine reports
`files_unchanged = 1, files_count = 0, total_files_scanned = 2`, so
`files_unchanged + files_count ≠ total_files_scanned`. -/
theorem C6_counters_identity_fails_on_upload_error :
    let r := (incBackupRun
      { id := 6, name := "j", job_type := .dataset, s3_bucket := "b",
        s3Prefix := "p", storage_class := .STANDARD,
        encryption_enabled := false, incremental_enabled := true }
      "snap"
      [("a", { size := some 5, mtime := some 7, hash := some "h",
               s3_key := some "p/j/a" })]
      [("a", some { size := 5, mtime := 7, hash := "h" }),
       ("b", some { size := 3, mtime := 2, hash := "g" })]
      (fun _ => true) (fun _ => false)).1
    r.files_unchanged = 1 ∧ r.files_count = 0 ∧
    r.total_files_scanned = some 2 ∧ r.upload_errors = some 1 ∧
    r.files_unchanged + r.files_count ≠ 2 := by
  decide

/-- When every scanned file is unchanged, the scan fold schedules nothing and
accumulates no new bytes. -/
theorem scanFold_noop (previousFiles : Manifest) (items : List ScanItem)
    (acc : ScanAcc) (hacc1 : acc.files_to_backup = [])
    (hacc2 : acc.new_size = 0)
    (h : ∀ p ∈ items, ∀ sig, p.2 = some sig →
      needsBackup previousFiles p.1 sig = false) :
    (items.foldl (scanStep previousFiles) acc).files_to_backup = [] ∧
    (items.foldl (scanStep previousFiles) acc).new_size = 0 := by
  induction items generalizing acc with
  | nil => exact ⟨hacc1, hacc2⟩
  | cons item rest ih =>
    rw [List.foldl_cons]
    obtain ⟨k, osig⟩ := item
    cases osig with
    | none =>
      exact ih { acc with skipped_files := acc.skipped_files + 1 } hacc1 hacc2
        (fun p hp => h p (List.mem_cons_of_mem _ hp))
    | some sig =>
      have hneed : needsBackup previousFiles k sig = false :=
        h (k, some sig) (List.mem_cons_self _ _) sig rfl
      have hstep : scanStep previousFiles acc (k, some sig) =
          { acc with
            file_count := acc.file_count + 1,
            total_size := acc.total_size + sig.size,
            files_unchanged := acc.files_unchanged + 1 } := by
        simp [scanStep, hneed]
      rw [hstep]
      exact ih _ hacc1 hacc2 (fun p hp => h p (List.mem_cons_of_mem _ hp))

/-- Claim C7 (amended): a second run over an unchanged tree against the
manifest written by the previous run is a no-op — the engine loads that
manifest, schedules nothing, returns the zero result with null `s3_key` and
`manifest_key`, performs no object writes (neither per-file objects nor a
manifest rewrite), and the worker finalises the run SUCCESS with no warning
and inserts a snapshot with `size_bytes = 0`, `files_count = 0`,
`manifest_key` null — and `s3_key` recorded as the `"N/A"` placeholder rather
than null. -/
theorem C7_noop_second_run (job : Job) (snapshotId : String) (snap : SnapRow)
    (store : BlobStore) (key : String) (doc : ManifestDoc)
    (items : List ScanItem) (found uploadOk : String → Bool)
    (jobId runId : Nat) (hkey : resolveManifestKey snap = some key)
    (hstore : store key = some (Blob.json doc))
    (hmatch : ∀ p ∈ items, ∀ sig, p.2 = some sig →
      needsBackup doc.files p.1 sig = false) :
    load_previous_manifest (some snap) store = doc.files ∧
    (incBackupRun job snapshotId (load_previous_manifest (some snap) store)
        items found uploadOk).1.files_count = 0 ∧
    (incBackupRun job snapshotId (load_previous_manifest (some snap) store)
        items found uploadOk).1.size_bytes = 0 ∧
    (incBackupRun job snapshotId (load_previous_manifest (some snap) store)
        items found uploadOk).1.s3_key = none ∧
    (incBackupRun job snapshotId (load_previous_manifest (some snap) store)
        items found uploadOk).1.manifest_key = none ∧
    (incBackupRun job snapshotId (load_previous_manifest (some snap) store)
        items found uploadOk).2 = [] ∧
    (finalizeRun (incBackupRun job snapshotId
        (load_previous_manifest (some snap) store) items found
        uploadOk).1).status = .SUCCESS ∧
    (finalizeRun (incBackupRun job snapshotId
        (load_previous_manifest (some snap) store) items found
        uploadOk).1).error_message = none ∧
    (snapshotOf jobId runId job.storage_class (incBackupRun job snapshotId
        (load_previous_manifest (some snap) store) items found
        uploadOk).1).size_bytes = 0 ∧
    (snapshotOf jobId runId job.storage_class (incBackupRun job snapshotId
        (load_previous_manifest (some snap) store) items found
        uploadOk).1).files_count = 0 ∧
    (snapshotOf jobId runId job.storage_class (incBackupRun job snapshotId
        (load_previous_manifest (some snap) store) items found
        uploadOk).1).s3_key = some "N/A" ∧
    (snapshotOf jobId runId job.storage_class (incBackupRun job snapshotId
        (load_previous_manifest (some snap) store) items found
        uploadOk).1).manifest_key = none := by
  have hload : load_previous_manifest (some snap) store = doc.files := by
    simp [load_previous_manifest, hkey, hstore, jsonParse]
  have hnoop := scanFold_noop doc.files items ScanAcc.empty rfl rfl hmatch
  have hzero : (scanAll doc.files items).files_to_backup.length = 0 := by
    have := hnoop.1
    simp only [scanAll, ScanAcc.empty]
    simp only [scanAll, ScanAcc.empty] at this
    rw [this]
    rfl
  have hrun : (incBackupRun job snapshotId
      (load_previous_manifest (some snap) store) items found uploadOk) =
      ({ snapshot_id := snapshotId, size_bytes := 0, files_count := 0,
         s3_key := none, manifest_key := none, incremental := true,
         files_unchanged := (scanAll doc.files items).files_unchanged,
         total_files_scanned := none, upload_errors := none }, []) := by
    rw [hload]
    simp only [incBackupRun, hzero, if_true]
  rw [hrun, hload]
  refine ⟨rfl, rfl, rfl, rfl, rfl, rfl, ?_, ?_, rfl, rfl, rfl, rfl⟩
  · simp [finalizeRun]
  · simp [finalizeRun]

/-- Witness for C7: a concrete one-file tree whose signature matches the
previous run's manifest entry. -/
theorem C7_noop_second_run_witness :
    load_previous_manifest
      (some { s3_key := some "p/j/", manifest_key := some "p/j.manifest.json",
              retained := true })
      (fun k => if k = "p/j.manifest.json" then
        some (Blob.json
          { snapshot_id := "run1", job_id := 1, total_files := 1,
            files := [("a", { size := some 5, mtime := some 7,
                              hash := some "h", s3_key := some "p/j/a" })] })
        else none) =
      [("a", { size := some 5, mtime := some 7, hash := some "h",
               s3_key := some "p/j/a" })] ∧
    (incBackupRun
      { id := 1, name := "j", job_type := .dataset, s3_bucket := "b",
        s3Prefix := "p", storage_class := .STANDARD,
        encryption_enabled := false, incremental_enabled := true }
      "run2"
      (load_previous_manifest
        (some { s3_key := some "p/j/",
                manifest_key := some "p/j.manifest.json", retained := true })
        (fun k => if k = "p/j.manifest.json" then
          some (Blob.json
            { snapshot_id := "run1", job_id := 1, total_files := 1,
              files := [("a", { size := some 5, mtime := some 7,
                                hash := some "h", s3_key := some "p/j/a" })] })
          else none))
      [("a", some { size := 5, mtime := 7, hash := "h" })]
      (fun _ => true) (fun _ => true)).1.files_count = 0 ∧
    (snapshotOf 1 2 StorageClass.STANDARD
      (incBackupRun
        { id := 1, name := "j", job_type := .dataset, s3_bucket := "b",
          s3Prefix := "p", storage_class := .STANDARD,
          encryption_enabled := false, incremental_enabled := true }
        "run2"
        (load_previous_manifest
          (some { s3_key := some "p/j/",
                  manifest_key := some "p/j.manifest.json", retained := true })
          (fun k => if k = "p/j.manifest.json" then
            some (Blob.json
              { snapshot_id := "run1", job_id := 1, total_files := 1,
                files := [("a", { size := some 5, mtime := some 7,
                                  hash := some "h", s3_key := some "p/j/a" })] })
            else none))
        [("a", some { size := 5, mtime := 7, hash := "h" })]
        (fun _ => true) (fun _ => true)).1).s3_key = some "N/A" := by
  have h := C7_noop_second_run
    { id := 1, name := "j", job_type := .dataset, s3_bucket := "b",
      s3Prefix := "p", storage_class := .STANDARD,
      encryption_enabled := false, incremental_enabled := true }
    "run2"
    { s3_key := some "p/j/", manifest_key := some "p/j.manifest.json",
      retained := true }
    (fun k => if k = "p/j.manifest.json" then
      some (Blob.json
        { snapshot_id := "run1", job_id := 1, total_files := 1,
          files := [("a", { size := some 5, mtime := some 7,
                            hash := some "h", s3_key := some "p/j/a" })] })
      else none)
    "p/j.manifest.json"
    { snapshot_id := "run1", job_id := 1, total_files := 1,
      files := [("a", { size := some 5, mtime := some 7, hash := some "h",
                        s3_key := some "p/j/a" })] }
    [("a", some { size := 5, mtime := 7, hash := "h" })]
    (fun _ => true) (fun _ => true) 1 2 (by decide) (by decide)
    (by decide)
  exact ⟨h.1, h.2.1, h.2.2.2.2.2.2.2.2.2.2.1⟩

/-- Counterexample to claim C7 as stated: in the concrete no-op run the engine
returns `s3_key = None`, but the snapshot row the worker inserts carries the
placeholder string `"N/A"`, not null. -/
theorem C7_noop_snapshot_key_not_null :
    let r := (incBackupRun
      { id := 1, name := "j", job_type := .dataset, s3_bucket := "b",
        s3Prefix := "p", storage_class := .STANDARD,
        encryption_enabled := false, incremental_enabled := true }
      "run2"
      [("a", { size := some 5, mtime := some 7, hash := some "h",
               s3_key := some "p/j/a" })]
      [("a", some { size := 5, mtime := 7, hash := "h" })]
      (fun _ => true) (fun _ => true)).1
    r.s3_key = none ∧ r.files_count = 0 ∧ r.size_bytes = 0 ∧
    (snapshotOf 1 2 StorageClass.STANDARD r).s3_key = some "N/A" ∧
    (snapshotOf 1 2 StorageClass.STANDARD r).s3_key ≠ none := by
  decide

/-- A dry-run full-archive sync performs no writes. -/
theorem sync_full_dry_effects (job : Job) (env : SyncEnv) :
    (sync_full_backup job env true).2 = [] := by
  cases h : env.latestSnapshot <;> simp [sync_full_backup, h]

/-- A dry-run incremental sync performs no writes. -/
theorem sync_incremental_dry_effects (job : Job) (env : SyncEnv) :
    (sync_incremental_backup job env true).2 = [] := by
  cases h : env.latestSnapshot with
  | none => simp [sync_incremental_backup, h]
  | some snap =>
    simp only [sync_incremental_backup, h]
    repeat' split
    all_goals simp_all

/-- Claim C9: reconciliation with `dry_run = true` performs no writes at all —
no object-store upload and no metadata commit — on the dispatcher and on both
the full-archive and the incremental paths, whatever issues are found. -/
theorem C9_dry_run_no_writes (job : Job) (env : SyncEnv) :
    (sync_job job env true).2 = [] ∧
    (sync_full_backup job env true).2 = [] ∧
    (sync_incremental_backup job env true).2 = [] := by
  refine ⟨?_, sync_full_dry_effects job env,
    sync_incremental_dry_effects job env⟩
  unfold sync_job
  split
  · exact sync_full_dry_effects job env
  · exact sync_incremental_dry_effects job env

end Coldvault
